import Mathlib

/-!
Shallow embedding of the authentication, session, quota and SDK client
logic of the Basalt SaaS repository (src/auth.py, src/routes_auth.py,
src/database.py, src/basalt_sdk/client.py).  Time is modelled in whole
seconds as Nat.  The process wide signing secret of src/auth.py is passed
explicitly as a parameter.  External libraries (PyJWT, passlib, requests)
are modelled by their documented behaviour, noted at each definition.
-/

namespace Basalt

/-- Python str.lower, modelled over the character list; the repository
only lowercases ASCII email addresses. -/
def pyLower (s : String) : String := ⟨s.data.map Char.toLower⟩

/-- Python str.startswith, modelled over the character lists. -/
def pyStartsWith (s p : String) : Bool := p.data.isPrefixOf s.data

/-- Values appearing in JWT claim maps: integers and strings.  The
repository stores the integer user_id claim, the string email claim and
the numeric exp timestamp added at issuance. -/
inductive JVal
  | int (n : Nat)
  | str (s : String)
  deriving DecidableEq, Repr

/-- Python truthiness of a claim value: 0 and the empty string are falsy. -/
def JVal.truthy : JVal → Bool
  | .int n => n != 0
  | .str s => s != ""

/-- A Python dict of JWT claims, modelled as an ordered association list. -/
abbrev Claims : Type := List (String × JVal)

/-- Lookup of a key in a claims dict, dict.get in Python. -/
def getClaim : Claims → String → Option JVal
  | [], _ => none
  | (a, b) :: t, k => if a == k then some b else getClaim t k

/-- Single key dict.update in Python: replace the value in place when the
key is present, append the pair otherwise. -/
def dictSet : Claims → String → JVal → Claims
  | [], k, v => [(k, v)]
  | (a, b) :: t, k, v => if a == k then (k, v) :: t else (a, b) :: dictSet t k v

/-- Model of an encoded JWT string: either a structurally valid compact
token, remembered by its payload and the key it was signed with, or a
malformed string. -/
inductive Jwt
  | signed (payload : Claims) (key : String)
  | malformed (raw : String)
  deriving DecidableEq, Repr

/-- Error classes that PyJWT jwt.decode raises. -/
inductive JwtErr
  | decodeErr
  | invalidSig
  | expiredSig
  deriving DecidableEq, Repr

/-- Modelled from PyJWT jwt.decode: a malformed structure raises
DecodeError; a signature made with a different key raises
InvalidSignatureError; an exp claim less than or equal to the current time
raises ExpiredSignatureError (leeway 0); a non numeric exp raises
DecodeError; a payload without an exp claim is accepted with no expiry
check. -/
def jwtDecode (token : Jwt) (key : String) (now : Nat) : Except JwtErr Claims :=
  match token with
  | .malformed _ => .error .decodeErr
  | .signed payload k =>
    if k == key then
      match getClaim payload "exp" with
      | some (.int e) => if e ≤ now then .error .expiredSig else .ok payload
      | some _ => .error .decodeErr
      | none => .ok payload
    else .error .invalidSig

/-- Python exceptions escaping the embedded functions.  attributeError
models the AttributeError raised when an except clause evaluates
jwt.JWTError, an attribute PyJWT does not define; invalidDigest models
passlib UnknownHashError for a digest string in no recognised format. -/
inductive PyExn
  | attributeError
  | invalidDigest
  deriving DecidableEq, Repr

/-- src/auth.py ACCESS_TOKEN_EXPIRE_HOURS = 24 * 7. -/
def ACCESS_TOKEN_EXPIRE_HOURS : Nat := 24 * 7

/-- src/auth.py create_access_token.  The expires_delta argument models the
optional timedelta in seconds.  The source guards on the truthiness of
expires_delta, and a zero timedelta is falsy in Python, so both none and
some 0 fall back to the 7 day default. -/
def create_access_token (secret : String) (data : Claims)
    (expires_delta : Option Nat) (now : Nat) : Jwt :=
  let expire :=
    match expires_delta with
    | some d => if 0 < d then now + d else now + 60 * 60 * ACCESS_TOKEN_EXPIRE_HOURS
    | none => now + 60 * 60 * ACCESS_TOKEN_EXPIRE_HOURS
  Jwt.signed (dictSet data "exp" (JVal.int expire)) secret

/-- src/auth.py decode_access_token.  The source catches
jwt.ExpiredSignatureError and then jwt.JWTError; PyJWT defines no JWTError
attribute, so when any other decoding error is raised the second except
clause itself raises AttributeError. -/
def decode_access_token (secret : String) (token : Jwt) (now : Nat) :
    Except PyExn (Option Claims) :=
  match jwtDecode token secret now with
  | .ok p => .ok (some p)
  | .error .expiredSig => .ok none
  | .error _ => .error .attributeError

/-- src/auth.py get_user_from_token: decode, then on a truthy payload (a
decoded empty dict is falsy) return the user_id claim. -/
def get_user_from_token (secret : String) (token : Jwt) (now : Nat) :
    Except PyExn (Option JVal) :=
  match decode_access_token secret token now with
  | .error e => .error e
  | .ok none => .ok none
  | .ok (some p) => if p.isEmpty then .ok none else .ok (getClaim p "user_id")

/-- Modelled from passlib with schemes bcrypt: a digest string is either a
well formed bcrypt digest, remembered by the password it hashes (the salt
does not affect the verify outcome and is abstracted away), or a string in
no recognised digest format. -/
inductive Digest
  | bcrypt (pw : String)
  | other (raw : String)
  deriving DecidableEq, Repr

/-- src/auth.py hash_password via passlib pwd_context.hash. -/
def hash_password (password : String) : Digest := .bcrypt password

/-- src/auth.py verify_password via passlib pwd_context.verify: comparison
against a well formed bcrypt digest yields a boolean, and any other digest
string raises UnknownHashError. -/
def verify_password (plain : String) (hashed : Digest) : Except PyExn Bool :=
  match hashed with
  | .bcrypt pw => .ok (plain == pw)
  | .other _ => .error .invalidDigest

/-- src/database.py User row, restricted to the columns the embedded
handlers read or write. -/
structure UserR where
  id : Nat
  email : String
  password_hash : Digest
  name : String
  company : Option String
  tier : String
  monthly_limit : Nat
  notarizations_this_month : Nat
  reset_date : Option Nat
  is_active : Bool
  last_login : Option Nat
  deriving DecidableEq, Repr

/-- src/database.py APIKey row, restricted to the columns the embedded
handlers read or write. -/
structure APIKeyR where
  id : Nat
  user_id : Nat
  key : String
  name : String
  is_active : Bool
  last_used : Option Nat
  usage_count : Nat
  deriving DecidableEq, Repr

/-- The persistent store: the users and api_keys tables, rows in insertion
order so that a first matching row query is List.find?. -/
structure DB where
  users : List UserR
  keys : List APIKeyR
  deriving DecidableEq, Repr

/-- timedelta(days=30) in seconds. -/
def thirtyDays : Nat := 30 * 24 * 60 * 60

/-- src/routes_auth.py check_user_limit: lazily reset the monthly counter
when the stored reset date has passed (the source compares with a strict
utcnow() greater than reset_date), then compare usage to the limit.  The
returned user record models the committed state. -/
def check_user_limit (u : UserR) (now : Nat) : UserR × Bool :=
  let u' :=
    match u.reset_date with
    | some r =>
      if r < now then
        { u with notarizations_this_month := 0, reset_date := some (now + thirtyDays) }
      else u
    | none => u
  (u', decide (u'.notarizations_this_month < u'.monthly_limit))

/-- The store interactions a handler can perform, recorded as a trace. -/
inductive StoreOp
  | readKeys
  | writeKeys
  | commit
  | readUsers
  deriving DecidableEq, Repr

/-- src/routes_auth.py validate_api_key.  The List StoreOp component is
the trace of store interactions, [] meaning the store was never touched;
the DB component is the committed store after the call.  The source guards
on falsiness of api_key and on the bslt_ marker before any query; the key
query filters on the key string and is_active together, so a deactivated
key is indistinguishable from an absent one. -/
def validate_api_key (api_key : String) (db : DB) (now : Nat) :
    List StoreOp × DB × Option UserR :=
  if api_key == "" || !(pyStartsWith api_key "bslt_") then ([], db, none)
  else
    match db.keys.find? (fun k => k.key == api_key && k.is_active) with
    | none => ([.readKeys], db, none)
    | some k =>
      let k' := { k with last_used := some now, usage_count := k.usage_count + 1 }
      let db' := { db with keys := db.keys.map (fun j => if j.id == k.id then k' else j) }
      ([.readKeys, .writeKeys, .commit, .readUsers], db',
        db'.users.find? (fun u => u.id == k.user_id))

/-- src/routes_auth.py get_current_user.  The cookie argument is none when
the session cookie is absent or the empty string, both of which fail the
falsiness guard on token.  A payload decoding to the empty dict is falsy
and yields no user.  The user query compares the integer User.id column to
the extracted claim, so a string claim matches no row. -/
def get_current_user (secret : String) (cookie : Option Jwt) (db : DB)
    (now : Nat) : Except PyExn (Option UserR) :=
  match cookie with
  | none => .ok none
  | some token =>
    match decode_access_token secret token now with
    | .error e => .error e
    | .ok none => .ok none
    | .ok (some payload) =>
      if payload.isEmpty then .ok none
      else
        match getClaim payload "user_id" with
        | none => .ok none
        | some v =>
          if v.truthy then
            match v with
            | .int n => .ok (db.users.find? (fun u => u.id == n))
            | .str _ => .ok none
          else .ok none

/-- Responses produced by the login and signup handlers: a rendered
template page carrying an optional error message and setting no cookie, or
a redirect optionally setting one cookie as a name and token pair. -/
inductive PageResp
  | template (page : String) (error : Option String)
  | redirect (url : String) (cookie : Option (String × Jwt))
  deriving DecidableEq, Repr

/-- src/routes_auth.py login_submit.  Lookup is by lower cased email; a
missing user or a failed password check renders the login template with
the one generic error message and leaves the store unchanged; success
updates last_login, commits, and redirects setting the session cookie.  An
exception from verify_password propagates. -/
def login_submit (secret email password : String) (db : DB) (now : Nat) :
    Except PyExn (DB × PageResp) :=
  match db.users.find? (fun u => u.email == pyLower email) with
  | none => .ok (db, .template "login.html" (some "Invalid email or password"))
  | some user =>
    match verify_password password user.password_hash with
    | .error e => .error e
    | .ok false => .ok (db, .template "login.html" (some "Invalid email or password"))
    | .ok true =>
      let user' := { user with last_login := some now }
      let db' := { db with users := db.users.map (fun v => if v.id == user.id then user' else v) }
      let token := create_access_token secret
        [("user_id", JVal.int user.id), ("email", JVal.str user.email)] none now
      .ok (db', .redirect "/dashboard" (some ("session", token)))

/-- Models the autoincrement primary key the store assigns on insert. -/
def nextId (db : DB) : Nat := (db.users.map (fun u => u.id)).foldr max 0 + 1

/-- src/routes_auth.py signup_submit.  The duplicate email check runs
before the password length check; either failure renders the signup
template with its error message and leaves the store unchanged; otherwise
the new user row is inserted with the free tier defaults and the handler
redirects setting the session cookie. -/
def signup_submit (secret name email password : String) (company : Option String)
    (db : DB) (now : Nat) : DB × PageResp :=
  match db.users.find? (fun u => u.email == pyLower email) with
  | some _ => (db, .template "signup.html" (some "An account with this email already exists"))
  | none =>
    if password.length < 8 then
      (db, .template "signup.html" (some "Password must be at least 8 characters"))
    else
      let uid := nextId db
      let user : UserR :=
        { id := uid
          email := pyLower email
          password_hash := hash_password password
          name := name
          company := company
          tier := "free"
          monthly_limit := 10
          notarizations_this_month := 0
          reset_date := some (now + thirtyDays)
          is_active := true
          last_login := none }
      let db' := { db with users := db.users ++ [user] }
      let token := create_access_token secret
        [("user_id", JVal.int uid), ("email", JVal.str user.email)] none now
      (db', .redirect "/dashboard" (some ("session", token)))

/-- src/basalt_sdk/client.py Evidence dataclass. -/
structure Evidence where
  ipfs_cid : String
  ipfs_url : String
  sha256_hash : String
  solana_tx : String
  c2pa_status : String
  deriving DecidableEq, Repr

/-- JSON body of the server response: a JSON object with an optional error
string field and optionally a complete evidence object, or a body that is
not valid JSON, carrying the Python decoding error message.  An object
with neither field triggers the KeyError on the evidence lookup. -/
inductive JsonBody
  | obj (error : Option String) (evidence : Option Evidence)
  | invalid (msg : String)
  deriving DecidableEq, Repr

/-- Outcome of the requests.post call: the transport level ConnectionError,
or a response with a status code and a body. -/
inductive ServerBehavior
  | unreachable
  | responds (status : Nat) (body : JsonBody)
  deriving DecidableEq, Repr

/-- A network interaction performed by the SDK client. -/
inductive NetEvent
  | post (url : String)
  deriving DecidableEq, Repr

/-- Faults raised by the SDK client: FileNotFoundError, or a plain
Exception carrying a message.  The connection failure case and the generic
failure case are both plain Exception in the source and are distinguished
by their messages. -/
inductive Fault
  | fileNotFound (msg : String)
  | exception (msg : String)
  deriving DecidableEq, Repr

/-- Abstraction of the message of the requests HTTPError that
raise_for_status raises for a status of 400 or above. -/
def httpErrMsg (status : Nat) (url : String) : String :=
  toString status ++ " Error for url: " ++ url

/-- src/basalt_sdk/client.py BasaltClient: the stored api_key and the
base_url, the latter already stripped of a trailing slash by the
initialiser. -/
structure BasaltClient where
  api_key : Option String
  base_url : String
  deriving DecidableEq, Repr

/-- src/basalt_sdk/client.py BasaltClient.notarize.  The Bool argument
models os.path.exists on file_path; the ServerBehavior argument models the
outcome of requests.post; the List NetEvent component is the trace of
network requests, [] meaning no network interaction happened.  The raise
inside the ConnectionError handler escapes the try statement directly,
while every exception raised inside the try block — the error field check,
raise_for_status, JSON decoding, and the KeyError on a missing evidence
field — is rewrapped by the generic handler into the Notarization Failed
message. -/
def BasaltClient.notarize (self : BasaltClient) (file_path : String)
    (fileExists : Bool) (server : ServerBehavior) :
    List NetEvent × Except Fault Evidence :=
  if !fileExists then
    ([], .error (.fileNotFound ("Asset not found at: " ++ file_path)))
  else
    let url := self.base_url ++ "/notarize"
    match server with
    | .unreachable =>
      ([.post url],
        .error (.exception "Could not connect to Basalt Node. Is the server running?"))
    | .responds status body =>
      ([.post url],
        if 400 ≤ status then
          .error (.exception ("Notarization Failed: " ++ httpErrMsg status url))
        else
          match body with
          | .invalid m => .error (.exception ("Notarization Failed: " ++ m))
          | .obj (some e) _ =>
            .error (.exception ("Notarization Failed: Basalt Node Error: " ++ e))
          | .obj none none =>
            .error (.exception ("Notarization Failed: " ++ "\x27evidence\x27"))
          | .obj none (some ev) => .ok ev)

/-! Helper lemmas about the claims dict operations. -/

theorem getClaim_dictSet (c : Claims) (k : String) (v : JVal) :
    getClaim (dictSet c k v) k = some v := by
  induction c with
  | nil => simp [dictSet, getClaim]
  | cons p t ih =>
    obtain ⟨a, b⟩ := p
    cases hak : a == k with
    | true => simp [dictSet, getClaim, hak]
    | false => simp [dictSet, getClaim, hak, ih]

theorem dictSet_of_getClaim_none (c : Claims) (k : String) (v : JVal)
    (h : getClaim c k = none) : dictSet c k v = c ++ [(k, v)] := by
  induction c with
  | nil => simp [dictSet]
  | cons p t ih =>
    obtain ⟨a, b⟩ := p
    cases hak : a == k with
    | true => simp [getClaim, hak] at h
    | false =>
      simp only [getClaim, hak, Bool.false_eq_true, if_false] at h
      simp [dictSet, hak, ih h]

/-- C1: check_user_limit first applies the lazy reset — when the current
time is past the stored reset_date it zeroes notarizations_this_month and
moves reset_date thirty days from now, the returned record being the
committed state — and then returns true exactly when the post reset usage
is below monthly_limit; for a user whose reset_date is in the past the
usage becomes 0, reset_date becomes now plus thirty days, and a positive
monthly_limit yields true; when no reset is due the record is unchanged. -/
theorem check_user_limit_spec (u : UserR) (now : Nat) :
    ((check_user_limit u now).2 = true ↔
      (check_user_limit u now).1.notarizations_this_month
        < (check_user_limit u now).1.monthly_limit)
    ∧ (∀ r, u.reset_date = some r → r < now →
        (check_user_limit u now).1.notarizations_this_month = 0
        ∧ (check_user_limit u now).1.reset_date = some (now + thirtyDays)
        ∧ (check_user_limit u now).1.monthly_limit = u.monthly_limit
        ∧ (0 < u.monthly_limit → (check_user_limit u now).2 = true))
    ∧ (∀ r, u.reset_date = some r → ¬ r < now → (check_user_limit u now).1 = u)
    ∧ (u.reset_date = none → (check_user_limit u now).1 = u) := by
  refine ⟨?_, ?_, ?_, ?_⟩
  · cases hr : u.reset_date with
    | none => simp [check_user_limit, hr]
    | some r =>
      by_cases h : r < now
      · simp [check_user_limit, hr, h]
      · simp [check_user_limit, hr, h]
  · intro r hr h
    simp [check_user_limit, hr, h]
  · intro r hr h
    simp [check_user_limit, hr, h]
  · intro hr
    simp [check_user_limit, hr]

theorem check_user_limit_spec_witness :
    let u : UserR :=
      { id := 1, email := "a@b.com", password_hash := Digest.bcrypt "pw123456"
        name := "A", company := none, tier := "free", monthly_limit := 10
        notarizations_this_month := 9, reset_date := some 100, is_active := true
        last_login := none }
    (check_user_limit u 200).1.notarizations_this_month = 0
    ∧ (check_user_limit u 200).1.reset_date = some (200 + thirtyDays)
    ∧ (check_user_limit u 200).2 = true := by
  intro u
  obtain ⟨h1, h2, _, h4⟩ := (check_user_limit_spec u 200).2.1 100 rfl (by decide)
  exact ⟨h1, h2, h4 (by decide)⟩

/-- C2 (code defect): decode_access_token returns none only for an already
expired token; a structurally malformed token or a signature mismatch
escapes as an AttributeError, because PyJWT defines no jwt.JWTError for
the second except clause to name; moreover a token issued with a ttl of
exactly 0 receives the 7 day default (a zero timedelta is falsy in
Python), so such a token still verifies instead of failing. -/
theorem decode_access_token_bug :
    decode_access_token "k" (Jwt.malformed "x") 10 = Except.error PyExn.attributeError
    ∧ decode_access_token "k" (Jwt.signed [("exp", JVal.int 3)] "other") 10
        = Except.error PyExn.attributeError
    ∧ decode_access_token "k" (Jwt.signed [("exp", JVal.int 3)] "k") 10 = Except.ok none
    ∧ decode_access_token "k" (create_access_token "k" [] (some 0) 10) 10
        = Except.ok (some [("exp", JVal.int (10 + 60 * 60 * ACCESS_TOKEN_EXPIRE_HOURS))]) := by
  exact ⟨rfl, rfl, rfl, rfl⟩

/-- C3: decoding immediately after create_access_token with a positive ttl
succeeds and returns exactly the input claims plus the one added exp claim
at now plus ttl; when the ttl argument is omitted the applied default
expiry is 7 days from issuance. -/
theorem create_then_decode (secret : String) (c : Claims) (t now : Nat)
    (ht : 0 < t) :
    decode_access_token secret (create_access_token secret c (some t) now) now
      = Except.ok (some (dictSet c "exp" (JVal.int (now + t))))
    ∧ (getClaim c "exp" = none →
        dictSet c "exp" (JVal.int (now + t)) = c ++ [("exp", JVal.int (now + t))])
    ∧ (∀ d, create_access_token secret d none now
        = create_access_token secret d (some (7 * 24 * 60 * 60)) now) := by
  refine ⟨?_, fun h => dictSet_of_getClaim_none c "exp" _ h, fun d => rfl⟩
  have hlt : ¬ (now + t ≤ now) := by omega
  simp [create_access_token, decode_access_token, jwtDecode, ht, getClaim_dictSet, hlt]

theorem create_then_decode_witness :
    decode_access_token "s" (create_access_token "s" [("user_id", JVal.int 1)] (some 5) 0) 0
      = Except.ok (some [("user_id", JVal.int 1), ("exp", JVal.int 5)]) := by
  have h := (create_then_decode "s" [("user_id", JVal.int 1)] 5 0 (by decide)).1
  exact h

/-- C5: verify_password never raises on a well formed digest — a mismatch
yields false rather than an error — and fails with exactly the
invalidDigest error on a digest in a format the module never produces; no
other exception arises for any plaintext and digest pair. -/
theorem verify_password_spec (p : String) (d : Digest) :
    (∀ q, d = Digest.bcrypt q → ∃ b, verify_password p d = Except.ok b)
    ∧ (∀ q, p ≠ q → verify_password p (Digest.bcrypt q) = Except.ok false)
    ∧ ((∀ q, d ≠ Digest.bcrypt q) → verify_password p d = Except.error PyExn.invalidDigest) := by
  refine ⟨fun q hq => ⟨p == q, by simp [verify_password, hq]⟩, fun q hpq => ?_, fun h => ?_⟩
  · simp [verify_password, beq_eq_false_iff_ne, hpq]
  · cases d with
    | bcrypt q => exact absurd rfl (h q)
    | other s => rfl

theorem verify_password_spec_witness :
    verify_password "a" (Digest.bcrypt "b") = Except.ok false
    ∧ verify_password "a" (Digest.other "zz") = Except.error PyExn.invalidDigest :=
  ⟨(verify_password_spec "a" (Digest.bcrypt "b")).2.1 "b" (by decide),
   (verify_password_spec "a" (Digest.other "zz")).2.2 (fun q h => Digest.noConfusion h)⟩

/-! Sample store contents used to instantiate the theorems. -/

/-- An ordinary active user, as signup would create one. -/
def uAlice : UserR :=
  { id := 1, email := "a@b.com", password_hash := Digest.bcrypt "password123"
    name := "Alice", company := none, tier := "free", monthly_limit := 10
    notarizations_this_month := 0, reset_date := some 1000, is_active := true
    last_login := none }

/-- A deactivated user holding an active API key. -/
def uBob : UserR :=
  { id := 2, email := "bob@x.com", password_hash := Digest.bcrypt "hunter2222"
    name := "Bob", company := none, tier := "pro", monthly_limit := 500
    notarizations_this_month := 3, reset_date := some 1000, is_active := false
    last_login := none }

/-- An active API key owned by uBob. -/
def kBob : APIKeyR :=
  { id := 7, user_id := 2, key := "bslt_bob", name := "Default"
    is_active := true, last_used := none, usage_count := 4 }

/-- The sample store. -/
def dbSample : DB := { users := [uAlice, uBob], keys := [kBob] }

/-- Decoding a session token right after the handlers issue it with the
default ttl succeeds and yields the two claims plus the added exp claim. -/
theorem decode_session_token (secret : String) (uid : Nat) (em : String) (now : Nat) :
    decode_access_token secret
      (create_access_token secret
        [("user_id", JVal.int uid), ("email", JVal.str em)] none now) now
      = Except.ok (some [("user_id", JVal.int uid), ("email", JVal.str em),
          ("exp", JVal.int (now + 60 * 60 * ACCESS_TOKEN_EXPIRE_HOURS))]) := by
  have hlt : ¬ (now + 60 * 60 * ACCESS_TOKEN_EXPIRE_HOURS ≤ now) := by
    have h : 60 * 60 * ACCESS_TOKEN_EXPIRE_HOURS = 604800 := rfl
    omega
  simp [create_access_token, decode_access_token, jwtDecode, dictSet, getClaim, hlt,
    show ("user_id" == "exp") = false from rfl,
    show ("email" == "exp") = false from rfl,
    show ("exp" == "exp") = true from rfl]

/-- C4: validate_api_key returns none without touching the store for any
key string lacking the bslt_ marker (the trace of store operations is
empty); for a marked string whose active key row is absent — a deactivated
key being indistinguishable from an absent one, since the query filters on
is_active — it returns none and leaves the store unchanged; and on every
successful validation it sets last_used to the current time, increments
usage_count by exactly one, commits, and returns the owning user. -/
theorem validate_api_key_spec (s : String) (db : DB) (now : Nat) :
    (pyStartsWith s "bslt_" = false → validate_api_key s db now = ([], db, none))
    ∧ (pyStartsWith s "bslt_" = true →
        (db.keys.find? (fun k => k.key == s && k.is_active) = none →
          validate_api_key s db now = ([StoreOp.readKeys], db, none))
        ∧ (∀ k, db.keys.find? (fun j => j.key == s && j.is_active) = some k →
            ∀ u, db.users.find? (fun v => v.id == k.user_id) = some u →
              validate_api_key s db now
                = ([StoreOp.readKeys, StoreOp.writeKeys, StoreOp.commit, StoreOp.readUsers],
                   { db with keys := db.keys.map (fun j => if j.id == k.id then
                       { k with last_used := some now, usage_count := k.usage_count + 1 }
                     else j) },
                   some u))) := by
  constructor
  · intro hs
    cases he : s == "" with
    | true => simp [validate_api_key, he]
    | false => simp [validate_api_key, he, hs]
  · intro hs
    have hne : (s == "") = false := by
      cases he : s == "" with
      | false => rfl
      | true =>
        have hse : s = "" := by simpa using he
        subst hse
        exact absurd hs (by decide)
    constructor
    · intro hk
      simp [validate_api_key, hne, hs, hk]
    · intro k hk u hu
      simp [validate_api_key, hne, hs, hk, hu]

theorem validate_api_key_spec_witness :
    validate_api_key "bslt_bob" dbSample 50
      = ([StoreOp.readKeys, StoreOp.writeKeys, StoreOp.commit, StoreOp.readUsers],
         { dbSample with keys := dbSample.keys.map (fun j => if j.id == kBob.id then
             { kBob with last_used := some 50, usage_count := kBob.usage_count + 1 }
           else j) },
         some uBob) :=
  ((validate_api_key_spec "bslt_bob" dbSample 50).2 (by decide)).2 kBob (by decide) uBob (by decide)

/-- C6: a login request whose email matches no user and a request with a
matching email but wrong password produce the identical outcome — the same
login template rendered with the one generic invalid credentials message,
no cookie set, store unchanged — so the response never reveals whether the
email exists; a request with a valid email and the correct password
redirects setting a session cookie whose token decodes to a payload whose
user_id claim is the id of that user. -/
theorem login_submit_spec (secret email password : String) (db : DB) (now : Nat) :
    (db.users.find? (fun u => u.email == pyLower email) = none →
      login_submit secret email password db now
        = Except.ok (db, PageResp.template "login.html" (some "Invalid email or password")))
    ∧ (∀ u, db.users.find? (fun v => v.email == pyLower email) = some u →
        (verify_password password u.password_hash = Except.ok false →
          login_submit secret email password db now
            = Except.ok (db, PageResp.template "login.html" (some "Invalid email or password")))
        ∧ (verify_password password u.password_hash = Except.ok true →
          ∃ db' tok,
            login_submit secret email password db now
              = Except.ok (db', PageResp.redirect "/dashboard" (some ("session", tok)))
            ∧ ∃ payload, decode_access_token secret tok now = Except.ok (some payload)
                ∧ getClaim payload "user_id" = some (JVal.int u.id))) := by
  constructor
  · intro h
    simp [login_submit, h]
  · intro u hu
    constructor
    · intro hv
      simp [login_submit, hu, hv]
    · intro hv
      refine ⟨{ db with users := db.users.map (fun v => if v.id == u.id then
          { u with last_login := some now } else v) },
        create_access_token secret
          [("user_id", JVal.int u.id), ("email", JVal.str u.email)] none now,
        by simp [login_submit, hu, hv],
        [("user_id", JVal.int u.id), ("email", JVal.str u.email),
          ("exp", JVal.int (now + 60 * 60 * ACCESS_TOKEN_EXPIRE_HOURS))],
        decode_session_token secret u.id u.email now, rfl⟩

theorem login_submit_spec_witness :
    ∃ db' tok,
      login_submit "sec" "A@B.com" "password123" dbSample 9
        = Except.ok (db', PageResp.redirect "/dashboard" (some ("session", tok)))
      ∧ ∃ payload, decode_access_token "sec" tok 9 = Except.ok (some payload)
          ∧ getClaim payload "user_id" = some (JVal.int uAlice.id) :=
  ((login_submit_spec "sec" "A@B.com" "password123" dbSample 9).2 uAlice (by decide)).2
    (by rfl)

/-- C7: a signup request for an email that already has an account renders
the duplicate account fault, and a signup request with a password shorter
than 8 characters renders the validation fault; in both failure cases the
store is returned unchanged, so no user record is created. -/
theorem signup_submit_spec (secret name email password : String)
    (company : Option String) (db : DB) (now : Nat) :
    (∀ u, db.users.find? (fun v => v.email == pyLower email) = some u →
      signup_submit secret name email password company db now
        = (db, PageResp.template "signup.html"
            (some "An account with this email already exists")))
    ∧ (db.users.find? (fun v => v.email == pyLower email) = none →
      password.length < 8 →
      signup_submit secret name email password company db now
        = (db, PageResp.template "signup.html"
            (some "Password must be at least 8 characters"))) := by
  constructor
  · intro u hu
    simp [signup_submit, hu]
  · intro h hlen
    simp [signup_submit, h, hlen]

theorem signup_submit_spec_witness :
    signup_submit "sec" "N" "A@B.com" "whatever123" none dbSample 3
      = (dbSample, PageResp.template "signup.html"
          (some "An account with this email already exists"))
    ∧ signup_submit "sec" "N" "new@x.com" "short" none dbSample 3
      = (dbSample, PageResp.template "signup.html"
          (some "Password must be at least 8 characters")) :=
  ⟨(signup_submit_spec "sec" "N" "A@B.com" "whatever123" none dbSample 3).1 uAlice (by decide),
   (signup_submit_spec "sec" "N" "new@x.com" "short" none dbSample 3).2 (by decide) (by decide)⟩

/-- C8: notarize maps a missing local file to the file not found fault
with an empty network trace, so the fault arises before any network
interaction; a transport level connection failure to the distinguished
server unreachable message; a 200 response whose JSON body carries an
error field to the generic Notarization Failed fault carrying the server
provided message; and every other response outcome either returns evidence
or fails with some generic Notarization Failed fault. -/
theorem notarize_spec (client : BasaltClient) (fp : String) (srv : ServerBehavior) :
    (BasaltClient.notarize client fp false srv
      = ([], Except.error (Fault.fileNotFound ("Asset not found at: " ++ fp))))
    ∧ (BasaltClient.notarize client fp true ServerBehavior.unreachable
      = ([NetEvent.post (client.base_url ++ "/notarize")],
         Except.error (Fault.exception
           "Could not connect to Basalt Node. Is the server running?")))
    ∧ (∀ msg ev, BasaltClient.notarize client fp true
        (ServerBehavior.responds 200 (JsonBody.obj (some msg) ev))
      = ([NetEvent.post (client.base_url ++ "/notarize")],
         Except.error (Fault.exception ("Notarization Failed: Basalt Node Error: " ++ msg))))
    ∧ (∀ status body, ∃ r,
        BasaltClient.notarize client fp true (ServerBehavior.responds status body)
          = ([NetEvent.post (client.base_url ++ "/notarize")], r)
        ∧ ((∃ ev, r = Except.ok ev)
          ∨ ∃ m, r = Except.error (Fault.exception ("Notarization Failed: " ++ m)))) := by
  refine ⟨rfl, rfl, fun msg ev => rfl, fun status body => ?_⟩
  by_cases h : 400 ≤ status
  · exact ⟨_, by simp [BasaltClient.notarize, h], Or.inr
      ⟨httpErrMsg status (client.base_url ++ "/notarize"), rfl⟩⟩
  · cases body with
    | invalid m =>
      exact ⟨_, by simp [BasaltClient.notarize, h], Or.inr ⟨m, rfl⟩⟩
    | obj e ev =>
      cases e with
      | some m =>
        refine ⟨Except.error (Fault.exception ("Notarization Failed: Basalt Node Error: " ++ m)),
          by simp [BasaltClient.notarize, h], Or.inr ⟨"Basalt Node Error: " ++ m, ?_⟩⟩
        rw [show ("Notarization Failed: Basalt Node Error: " : String)
            = "Notarization Failed: " ++ "Basalt Node Error: " from rfl, String.append_assoc]
      | none =>
        cases ev with
        | some ev2 =>
          exact ⟨_, by simp [BasaltClient.notarize, h], Or.inl ⟨ev2, rfl⟩⟩
        | none =>
          exact ⟨_, by simp [BasaltClient.notarize, h], Or.inr ⟨"\x27evidence\x27", rfl⟩⟩

/-- C9: neither API key validation nor session resolution consults the
user is_active flag: for a deactivated user — the is_active = false
hypothesis is never needed by the proof — validating one of that user's
active keys still returns the user, and resolving a valid session token
naming that user still yields them as the authenticated user. -/
theorem is_active_not_consulted (secret : String) (db : DB) (now : Nat)
    (u : UserR) (k : APIKeyR)
    (_hinact : u.is_active = false)
    (hmark : pyStartsWith k.key "bslt_" = true)
    (hk : db.keys.find? (fun j => j.key == k.key && j.is_active) = some k)
    (hu : db.users.find? (fun v => v.id == k.user_id) = some u)
    (hu2 : db.users.find? (fun v => v.id == u.id) = some u)
    (hzero : u.id ≠ 0) :
    (validate_api_key k.key db now).2.2 = some u
    ∧ get_current_user secret
        (some (Jwt.signed [("user_id", JVal.int u.id)] secret)) db now
      = Except.ok (some u) := by
  constructor
  · have hne : (k.key == "") = false := by
      cases he : k.key == "" with
      | false => rfl
      | true =>
        have hse : k.key = "" := by simpa using he
        rw [hse] at hmark
        exact absurd hmark (by decide)
    simp [validate_api_key, hne, hmark, hk, hu]
  · simp [get_current_user, decode_access_token, jwtDecode, getClaim, JVal.truthy,
      hzero, hu2, show ("user_id" == "exp") = false from rfl,
      show ("user_id" == "user_id") = true from rfl]

theorem is_active_not_consulted_witness :
    (validate_api_key kBob.key dbSample 50).2.2 = some uBob
    ∧ get_current_user "sec"
        (some (Jwt.signed [("user_id", JVal.int uBob.id)] "sec")) dbSample 50
      = Except.ok (some uBob) :=
  is_active_not_consulted "sec" dbSample 50 uBob kBob (by decide) (by decide)
    (by decide) (by decide) (by decide) (by decide)

/-- C10: get_current_user treats a session token whose user_id claim is
the well formed integer 0 exactly like a token with no user_id claim at
all: both resolve to no authenticated user, because the extracted claim is
tested for truthiness rather than presence. -/
theorem get_current_user_zero_user_id (secret : String) (db : DB) (now : Nat)
    (payload payload2 : Claims)
    (h0 : getClaim payload "user_id" = some (JVal.int 0))
    (hexp : getClaim payload "exp" = none)
    (hmiss : getClaim payload2 "user_id" = none)
    (hexp2 : getClaim payload2 "exp" = none) :
    get_current_user secret (some (Jwt.signed payload secret)) db now = Except.ok none
    ∧ get_current_user secret (some (Jwt.signed payload2 secret)) db now
        = Except.ok none := by
  constructor
  · cases payload with
    | nil => simp [getClaim] at h0
    | cons p t =>
      simp [get_current_user, decode_access_token, jwtDecode, hexp, h0, JVal.truthy]
  · cases payload2 with
    | nil => simp [get_current_user, decode_access_token, jwtDecode, getClaim]
    | cons p t =>
      simp [get_current_user, decode_access_token, jwtDecode, hexp2, hmiss]

theorem get_current_user_zero_user_id_witness :
    get_current_user "sec" (some (Jwt.signed [("user_id", JVal.int 0)] "sec")) dbSample 5
      = Except.ok none
    ∧ get_current_user "sec" (some (Jwt.signed [("email", JVal.str "x@y.z")] "sec")) dbSample 5
      = Except.ok none :=
  get_current_user_zero_user_id "sec" dbSample 5
    [("user_id", JVal.int 0)] [("email", JVal.str "x@y.z")]
    (by rfl) (by rfl) (by rfl) (by rfl)

end Basalt
